import Mathlib

/-!
Verification of the rabbus resilient-messaging facade (src/rabbus.go).

The Go source is shallowly embedded: pure data is translated to Lean
structures, the broker is an oracle (functions giving the result of each
broker call), and the side-effecting pipeline functions are translated to
pure functions that return the updated state together with a trace of the
observable events they perform, in source order.

External library behaviour (sony/gobreaker, rafaeljesus/retry-go, the
amqp wire client) and repository code that is not under src/
(ConsumerMessage, newConsumerMessage, the ErrMissing* sentinels) are
modelled from the spec; every such definition says so in its doc comment.
-/

namespace Rabbus

/-- Source constant `Transient` (rabbus.go line 14): delivery mode 1. -/
def Transient : Nat := 1

/-- Source constant `Persistent` (rabbus.go line 16): delivery mode 2. -/
def Persistent : Nat := 2

/-- Source constant `ContentTypeJSON` (rabbus.go line 18). -/
def ContentTypeJSON : String := "application/json"

/-- Source constant `ContentTypePlain` (rabbus.go line 20). -/
def ContentTypePlain : String := "plain/text"

/-- The gobreaker circuit-breaker state. Modelled from the spec:
gobreaker is an external library; its states are closed, open and
half-open (spec section 4.3). `opened` stands for the open state. -/
inductive State : Type
  | closed
  | opened
  | halfOpen
deriving DecidableEq, Repr

/-- Source struct `Config` (rabbus.go lines 40-61).  Durations are
abstract Nat ticks; `OnStateChange` is `none` when the Go field is nil. -/
structure Config : Type where
  Dsn : String
  Durable : Bool
  Attempts : Nat
  Sleep : Nat
  Interval : Nat
  Timeout : Nat
  Threshold : Nat
  OnStateChange : Option (String → String → String → Unit)

/-- Source struct `Message` (rabbus.go lines 64-77). Payload bytes are a
list of Nat. -/
structure Message : Type where
  Exchange : String
  Kind : String
  Key : String
  Payload : List Nat
  DeliveryMode : Nat
  ContentType : String
deriving DecidableEq, Repr

/-- Source struct `ListenConfig` (rabbus.go lines 80-89). -/
structure ListenConfig : Type where
  Exchange : String
  Kind : String
  Key : String
  Queue : String
deriving DecidableEq, Repr

/-- The argument record of `amqp.Publishing` as built at rabbus.go lines
247-253 (the Timestamp field, real time, is omitted). -/
structure Publishing : Type where
  ContentType : String
  ContentEncoding : String
  DeliveryMode : Nat
  Body : List Nat
deriving DecidableEq, Repr

/-- Errors that the emit pipeline can put on the error channel:
a failed exchange declare (rabbus.go line 231), the gobreaker
open-state rejection, or the final publish error after the retries
(both surfaced at line 256).  The breaker-open rejection is modelled
from the spec: gobreaker returns its own sentinel `ErrOpenState`
when the breaker is open. -/
inductive EmitError : Type
  | declareFailed (e : String)
  | breakerOpen
  | publishFailed (e : String)
deriving DecidableEq, Repr

/-- Internal counters of the circuit breaker.  Modelled from the spec:
gobreaker keeps a consecutive-failure count used by `ReadyToTrip`. -/
structure BreakerData : Type where
  state : State
  consecutiveFailures : Nat
deriving DecidableEq, Repr

/-- The `ReadyToTrip` closure installed by `NewRabbus`
(rabbus.go lines 130-132): trip when the consecutive failures are
strictly greater than the configured threshold. -/
def readyToTrip (threshold : Nat) (consecutiveFailures : Nat) : Bool :=
  decide (consecutiveFailures > threshold)

/-- The threshold defaulting in `NewRabbus` (rabbus.go lines 122-124):
a zero threshold becomes 5. -/
def defaultedConfig (c : Config) : Config :=
  if c.Threshold = 0 then { c with Threshold := 5 } else c

/-- Result of one `breaker.Execute` call: the new breaker data, the
call result, whether the wrapped operation was actually invoked, and
the list of state transitions (from, to) performed by the call. -/
structure BreakerResult : Type where
  breaker : BreakerData
  result : Except EmitError Unit
  invoked : Bool
  transitions : List (State × State)
deriving Repr

/-- Modelled from the spec: `gobreaker.CircuitBreaker.Execute`
(external library, spec section 4.3).  In the open state the call is
rejected immediately and the wrapped operation is not invoked; in the
closed state the operation runs, a success resets the consecutive
failure count, a failure increments it and the breaker opens when
`ReadyToTrip` holds of the updated counts; in the half-open state the
single trial call closes the breaker on success and re-opens it on
failure.  The time-based open to half-open transition is real time and
is not modelled. -/
def breakerExecute (ready : Nat → Bool) (b : BreakerData)
    (opRes : Except String Unit) : BreakerResult :=
  match b.state with
  | State.opened => ⟨b, Except.error EmitError.breakerOpen, false, []⟩
  | State.closed =>
      match opRes with
      | Except.ok _ => ⟨⟨State.closed, 0⟩, Except.ok (), true, []⟩
      | Except.error e =>
          let cf := b.consecutiveFailures + 1
          if ready cf then
            ⟨⟨State.opened, cf⟩, Except.error (EmitError.publishFailed e), true,
              [(State.closed, State.opened)]⟩
          else
            ⟨⟨State.closed, cf⟩, Except.error (EmitError.publishFailed e), true, []⟩
  | State.halfOpen =>
      match opRes with
      | Except.ok _ =>
          ⟨⟨State.closed, 0⟩, Except.ok (), true, [(State.halfOpen, State.closed)]⟩
      | Except.error e =>
          ⟨⟨State.opened, b.consecutiveFailures + 1⟩,
            Except.error (EmitError.publishFailed e), true,
            [(State.halfOpen, State.opened)]⟩

/-- Modelled from the spec: `retry.Do` of rafaeljesus/retry-go (external
library, spec section 4.4): attempt the call, on failure retry while more
than one attempt remains, returning the last error; the fixed sleep is
real time and not modelled.  `f` gives the broker result of each attempt
by index; the returned Nat is the number of attempts made. -/
def retryDo (f : Nat → Except String Unit) :
    Nat → Nat → Except String Unit × Nat
  | idx, 0 =>
      match f idx with
      | Except.ok _ => (Except.ok (), 1)
      | Except.error e => (Except.error e, 1)
  | idx, 1 =>
      match f idx with
      | Except.ok _ => (Except.ok (), 1)
      | Except.error e => (Except.error e, 1)
  | idx, n + 2 =>
      match f idx with
      | Except.ok _ => (Except.ok (), 1)
      | Except.error e =>
          let r := retryDo f (idx + 1) (n + 1)
          (r.1, r.2 + 1)

/-- The mutable state of the facade that the produce path touches: the
identity of the active channel (a fresh Nat per channel handle), the
exchange-declaration cache `exDeclared` (rabbus.go line 105), and the
circuit-breaker state. -/
structure PState : Type where
  chId : Nat
  exDeclared : List String
  breaker : BreakerData
deriving DecidableEq, Repr

/-- Observable events of one `produce` call, in source order:
a broker exchange-declare call (with the channel it went to), the
execution of the defaulting statements (rabbus.go lines 237-243), a
breaker-invoked publish (with the channel, the publishing record and
how many retry attempts ran), and the sends on the error and success
channels. -/
inductive ProduceEvent : Type
  | exchangeDeclare (ch : Nat) (exchange kind : String) (durable : Bool)
  | applyDefaults
  | publish (ch : Nat) (exchange key : String) (p : Publishing) (attempts : Nat)
  | emitErr (e : EmitError)
  | emitOk
deriving DecidableEq, Repr

/-- The tail of `produce` after the declare block (rabbus.go lines
237-261): default the content type and delivery mode, then call the
breaker around the retried publish and send exactly one outcome. -/
def produceRest (cfg : Config) (pubRes : Nat → Except String Unit)
    (st : PState) (m : Message) (ev : List ProduceEvent) :
    PState × List ProduceEvent :=
  let m1 := if m.ContentType = "" then { m with ContentType := ContentTypeJSON } else m
  let m2 := if m1.DeliveryMode = 0 then { m1 with DeliveryMode := Persistent } else m1
  let ev1 := ev ++ [ProduceEvent.applyDefaults]
  let pub : Publishing := ⟨m2.ContentType, "UTF-8", m2.DeliveryMode, m2.Payload⟩
  let op := retryDo pubRes 0 cfg.Attempts
  let br := breakerExecute (readyToTrip cfg.Threshold) st.breaker op.1
  let st1 := { st with breaker := br.breaker }
  let ev2 := if br.invoked then
      ev1 ++ [ProduceEvent.publish st.chId m2.Exchange m2.Key pub op.2]
    else ev1
  match br.result with
  | Except.error e => (st1, ev2 ++ [ProduceEvent.emitErr e])
  | Except.ok _ => (st1, ev2 ++ [ProduceEvent.emitOk])

/-- `produce` (rabbus.go lines 228-261).  `declareRes` is the broker
oracle for `ExchangeDeclare` on a given channel; `pubRes` gives the
broker result of each publish attempt.  Returns the new state and the
trace of events, in source order: the declare block first (skipped on a
cache hit; on declare failure the error is emitted and the function
returns), then the defaulting statements, then the breaker-wrapped
retried publish. -/
def produce (cfg : Config)
    (declareRes : Nat → String → String → Except String Unit)
    (pubRes : Nat → Except String Unit)
    (st : PState) (m : Message) : PState × List ProduceEvent :=
  if st.exDeclared.contains m.Exchange then
    produceRest cfg pubRes st m []
  else
    let ev := [ProduceEvent.exchangeDeclare st.chId m.Exchange m.Kind cfg.Durable]
    match declareRes st.chId m.Exchange m.Kind with
    | Except.error e => (st, ev ++ [ProduceEvent.emitErr (EmitError.declareFailed e)])
    | Except.ok _ =>
        produceRest cfg pubRes { st with exDeclared := m.Exchange :: st.exDeclared } m ev

/-- The `register` loop (rabbus.go lines 222-226) unrolled over a list of
messages read from the emit channel: `produce` is run on each in order.
`pubRes i` is the publish oracle for the i-th message (counting from
`i0`).  Returns the final state and the per-message event traces. -/
def processFrom (cfg : Config)
    (declareRes : Nat → String → String → Except String Unit)
    (pubRes : Nat → Nat → Except String Unit) :
    Nat → PState → List Message → PState × List (List ProduceEvent)
  | _, st, [] => (st, [])
  | i, st, m :: ms =>
      let r := produce cfg declareRes (pubRes i) st m
      let rest := processFrom cfg declareRes pubRes (i + 1) r.1 ms
      (rest.1, r.2 :: rest.2)

/-- The reconnection swap inside `notifyClose` (rabbus.go lines 278-281):
under the lock the connection and channel handles are replaced by the
freshly dialed ones — modelled as a fresh channel identity — and nothing
else is touched: in particular `exDeclared` is NOT reset. -/
def reconnectSwap (s : PState) : PState :=
  { s with chId := s.chId + 1 }

/-- An inbound broker delivery (amqp.Delivery of the external wire
client), reduced to its payload bytes and delivery tag. -/
structure Delivery : Type where
  Body : List Nat
  DeliveryTag : Nat
deriving DecidableEq, Repr

/-- Modelled from the spec: `ConsumerMessage` is defined in this
repository outside src/; per spec section 3 an InboundDelivery wraps a
single broker delivery and the relay never inspects it after
forwarding. -/
structure ConsumerMessage : Type where
  delivery : Delivery
deriving DecidableEq, Repr

/-- Modelled from the spec: `newConsumerMessage` is defined in this
repository outside src/; it wraps one broker delivery into a
`ConsumerMessage` (used at rabbus.go line 209). -/
def newConsumerMessage (d : Delivery) : ConsumerMessage :=
  ⟨d⟩

/-- The errors `Listen` can return.  The three `errMissing*` sentinels
are modelled from the spec: they are package-level error values of this
repository defined outside src/, one distinct sentinel per missing
field (spec section 6); a constructor each makes them pairwise
distinct.  `brokerErr` carries an underlying declare, bind or consume
error returned unchanged (rabbus.go lines 188-204). -/
inductive RabbusError : Type
  | errMissingExchange
  | errMissingKind
  | errMissingQueue
  | brokerErr (e : String)
deriving DecidableEq, Repr

/-- Broker oracle for the Listen path: the result of each broker call
the source can make.  `queueDeclare` returns the declared queue's name
(amqp returns the server-assigned name; for a named queue it is the
requested name), `consume` returns the whole delivery stream as the
list of deliveries that arrive before the stream closes. -/
structure ListenBroker : Type where
  exchangeDeclare : String → String → Bool → Except String Unit
  queueDeclare : String → Bool → Except String String
  queueBind : String → String → String → Except String Unit
  consume : String → Except String (List Delivery)

/-- One broker interaction made by `Listen`, in call order, with the
arguments the source passes. -/
inductive ListenCall : Type
  | exchangeDeclare (exchange kind : String) (durable : Bool)
  | queueDeclare (queue : String) (durable : Bool)
  | queueBind (queue key exchange : String)
  | consume (queue : String)
deriving DecidableEq, Repr

/-- What a successful `Listen` sets up: the output channel's capacity
(rabbus.go line 206), the messages the relay goroutine forwards into it
in order (lines 208-210), and whether the goroutine closes the output
channel after the delivery stream ends. -/
structure ListenResult : Type where
  capacity : Nat
  output : List ConsumerMessage
  outputClosed : Bool
deriving DecidableEq, Repr

/-- `Listen` (rabbus.go lines 175-214): validate exchange, kind and
queue in that order, returning the matching sentinel with no broker
call; then declare the exchange, declare the queue, bind it and start
the consumer, stopping at the first broker error; finally make the
256-capacity output channel and the relay goroutine, which forwards
each delivery one-to-one in order and exits without closing the output
channel when the stream closes.  Returns the result and the list of
broker calls made. -/
def listen (cfg : Config) (b : ListenBroker) (c : ListenConfig) :
    Except RabbusError ListenResult × List ListenCall :=
  if c.Exchange = "" then
    (Except.error RabbusError.errMissingExchange, [])
  else if c.Kind = "" then
    (Except.error RabbusError.errMissingKind, [])
  else if c.Queue = "" then
    (Except.error RabbusError.errMissingQueue, [])
  else
    let calls1 := [ListenCall.exchangeDeclare c.Exchange c.Kind cfg.Durable]
    match b.exchangeDeclare c.Exchange c.Kind cfg.Durable with
    | Except.error e => (Except.error (RabbusError.brokerErr e), calls1)
    | Except.ok _ =>
        let calls2 := calls1 ++ [ListenCall.queueDeclare c.Queue cfg.Durable]
        match b.queueDeclare c.Queue cfg.Durable with
        | Except.error e => (Except.error (RabbusError.brokerErr e), calls2)
        | Except.ok qName =>
            let calls3 := calls2 ++ [ListenCall.queueBind qName c.Key c.Exchange]
            match b.queueBind qName c.Key c.Exchange with
            | Except.error e => (Except.error (RabbusError.brokerErr e), calls3)
            | Except.ok _ =>
                let calls4 := calls3 ++ [ListenCall.consume qName]
                match b.consume qName with
                | Except.error e => (Except.error (RabbusError.brokerErr e), calls4)
                | Except.ok msgs =>
                    (Except.ok ⟨256, msgs.map newConsumerMessage, false⟩, calls4)

/-- The whole facade state visible at the channel level: the produce
state, whether the amqp channel and connection handles have been
closed, whether the three Go channels of the emit protocol are open,
and whether the `register` goroutine is running. -/
structure RabbusSt : Type where
  pstate : PState
  chClosed : Bool
  connClosed : Bool
  emitOpen : Bool
  emitErrOpen : Bool
  emitOkOpen : Bool
  registerRunning : Bool
deriving DecidableEq, Repr

/-- `Close` (rabbus.go lines 217-220): close the amqp channel, then the
amqp connection.  Nothing else is touched. -/
def closeRabbus (s : RabbusSt) : RabbusSt :=
  { s with chClosed := true, connClosed := true }

/-- One iteration of the `register` loop (rabbus.go lines 222-226) on
the facade state: dequeue one message from the emit channel and run
`produce` on it. -/
def registerStep (cfg : Config)
    (declareRes : Nat → String → String → Except String Unit)
    (pubRes : Nat → Except String Unit)
    (s : RabbusSt) (m : Message) : RabbusSt × List ProduceEvent :=
  let r := produce cfg declareRes pubRes s.pstate m
  ({ s with pstate := r.1 }, r.2)

/-- Modelled from the spec: `gobreaker.State.String` of the external
library renders the states as "closed", "open" and "half-open"
(used at rabbus.go line 134). -/
def stateString : State → String
  | State.closed => "closed"
  | State.opened => "open"
  | State.halfOpen => "half-open"

/-- Calling a Go function value that may be nil: calling a nil function
panics with a nil-pointer dereference, modelled as the error case. -/
def invokeCallback (cb : Option (String → String → String → Unit))
    (name fromS toS : String) : Except String Unit :=
  match cb with
  | none => Except.error "runtime error: invalid memory address or nil pointer dereference"
  | some f => Except.ok (f name fromS toS)

/-- The `OnStateChange` closure installed by `NewRabbus` (rabbus.go
lines 133-135): it calls `c.OnStateChange` unconditionally, with the
breaker name and the rendered states, never checking the configured
callback for nil. -/
def settingsOnStateChange (c : Config) (name : String) (fromS toS : State) :
    Except String Unit :=
  invokeCallback c.OnStateChange name (stateString fromS) (stateString toS)

/-- The callback invocations a breaker call triggers: gobreaker invokes
the settings' `OnStateChange` once per state transition (spec section
4.3: every transition invokes the observer). -/
def transitionCallbackResults (c : Config) (name : String)
    (transitions : List (State × State)) : List (Except String Unit) :=
  transitions.map fun t => settingsOnStateChange c name t.1 t.2

/-- Does the event call the broker's exchange declare? -/
def isDeclareEvent : ProduceEvent → Bool
  | ProduceEvent.exchangeDeclare _ _ _ _ => true
  | _ => false

/-- Is the event the execution of the defaulting statements? -/
def isDefaultsEvent : ProduceEvent → Bool
  | ProduceEvent.applyDefaults => true
  | _ => false

/-- Did the breaker invoke the retried publish? -/
def isPublishEvent : ProduceEvent → Bool
  | ProduceEvent.publish _ _ _ _ _ => true
  | _ => false

/-- Is the event a send on one of the two outcome channels? -/
def isOutcomeEvent : ProduceEvent → Bool
  | ProduceEvent.emitErr _ => true
  | ProduceEvent.emitOk => true
  | _ => false

/-- How many outcome sends (error or success) the trace contains. -/
def outcomeCount (evs : List ProduceEvent) : Nat :=
  (evs.filter isOutcomeEvent).length

/-- The publishing record of the first publish event of the trace. -/
def publishedRecord : List ProduceEvent → Option Publishing
  | [] => none
  | ProduceEvent.publish _ _ _ p _ :: _ => some p
  | _ :: evs => publishedRecord evs

/-- Fixture: a configuration with failure threshold 2 and a single
publish attempt per message (no configured callback). -/
def cfgT2 : Config :=
  ⟨"amqp://localhost", true, 1, 0, 0, 0, 2, none⟩

/-- Fixture: a broker whose exchange declares always succeed. -/
def declOk : Nat → String → String → Except String Unit :=
  fun _ _ _ => Except.ok ()

/-- Fixture: a broker on which every publish attempt of every message
fails. -/
def pubFailAll : Nat → Nat → Except String Unit :=
  fun _ _ => Except.error "publish failed"

/-- Fixture: a broker on which every publish attempt succeeds. -/
def pubOkAll : Nat → Nat → Except String Unit :=
  fun _ _ => Except.ok ()

/-- Fixture: a message to the "orders" exchange with unset content type
and delivery mode. -/
def msgOrders : Message :=
  ⟨"orders", "topic", "created", [123, 125], 0, ""⟩

/-- Fixture: the initial produce state right after construction: first
channel, empty declaration cache, closed breaker. -/
def st0 : PState :=
  ⟨0, [], ⟨State.closed, 0⟩⟩

/-- The publishing record `produce` builds after the defaulting
statements (rabbus.go lines 237-253): unset content type becomes
`ContentTypeJSON`, zero delivery mode becomes `Persistent`, the
content encoding is fixed to "UTF-8" and the body is the payload. -/
def defaultedPublishing (m : Message) : Publishing :=
  ⟨if m.ContentType = "" then ContentTypeJSON else m.ContentType, "UTF-8",
    if m.DeliveryMode = 0 then Persistent else m.DeliveryMode, m.Payload⟩

/-- The index of the first event satisfying the predicate, if any. -/
def firstIdx (p : ProduceEvent → Bool) : List ProduceEvent → Option Nat
  | [] => none
  | e :: evs => if p e then some 0 else (firstIdx p evs).map (fun i => i + 1)

/-- How many sends on the error channel the trace contains. -/
def errSendCount (evs : List ProduceEvent) : Nat :=
  (evs.filter fun x => match x with
    | ProduceEvent.emitErr _ => true
    | _ => false).length

/-- How many sends on the success channel the trace contains. -/
def okSendCount (evs : List ProduceEvent) : Nat :=
  (evs.filter fun x => match x with
    | ProduceEvent.emitOk => true
    | _ => false).length

/-- Fixture: three deliveries arriving on the consumer stream. -/
def deliveries3 : List Delivery :=
  [⟨[1], 1⟩, ⟨[2], 2⟩, ⟨[3], 3⟩]

/-- Fixture: a Listen-path broker on which every call succeeds,
declaring queues under their requested names and delivering `ds` on the
consumer stream. -/
def listenBrokerOk (ds : List Delivery) : ListenBroker :=
  ⟨fun _ _ _ => Except.ok (), fun q _ => Except.ok q,
    fun _ _ _ => Except.ok (), fun _ => Except.ok ds⟩

/-- Fixture: a well-formed subscription request. -/
def lcOrders : ListenConfig :=
  ⟨"orders", "topic", "created", "orders-q"⟩

/-- Fixture: a subscription request with an empty routing key and all
required fields present. -/
def lcNoKey : ListenConfig :=
  ⟨"orders", "topic", "", "orders-q"⟩

/-- Fixture: a broker whose exchange declares always fail. -/
def declFail : Nat → String → String → Except String Unit :=
  fun _ _ _ => Except.error "declare failed"

/-- Helper: the trace of `produceRest` is the incoming trace followed by
the defaulting step and then exactly one of three endings: an invoked
publish with a success outcome, an invoked publish with a final publish
error, or the breaker-open rejection with no publish at all. -/
theorem produceRest_cases (cfg : Config) (pubRes : Nat → Except String Unit)
    (st : PState) (m : Message) (ev : List ProduceEvent) :
    (∃ att, (produceRest cfg pubRes st m ev).2
        = ev ++ [ProduceEvent.applyDefaults,
            ProduceEvent.publish st.chId m.Exchange m.Key (defaultedPublishing m) att,
            ProduceEvent.emitOk])
    ∨ (∃ att e, (produceRest cfg pubRes st m ev).2
        = ev ++ [ProduceEvent.applyDefaults,
            ProduceEvent.publish st.chId m.Exchange m.Key (defaultedPublishing m) att,
            ProduceEvent.emitErr (EmitError.publishFailed e)])
    ∨ ((produceRest cfg pubRes st m ev).2
        = ev ++ [ProduceEvent.applyDefaults,
            ProduceEvent.emitErr EmitError.breakerOpen]) := by
  obtain ⟨ch, exd, bs, cf⟩ := st
  cases bs <;> cases hop : (retryDo pubRes 0 cfg.Attempts).1 <;>
    by_cases hct : m.ContentType = "" <;> by_cases hdm : m.DeliveryMode = 0 <;>
      simp [produceRest, breakerExecute, hop, hct, hdm, defaultedPublishing,
        apply_ite, Transient, Persistent]

/-- Helper: `produceRest` never touches the declaration cache. -/
theorem produceRest_exDeclared (cfg : Config) (pubRes : Nat → Except String Unit)
    (st : PState) (m : Message) (ev : List ProduceEvent) :
    (produceRest cfg pubRes st m ev).1.exDeclared = st.exDeclared := by
  simp only [produceRest]
  cases h : (breakerExecute (readyToTrip cfg.Threshold) st.breaker
      (retryDo pubRes 0 cfg.Attempts).1).result <;> simp [h]

/-- Helper: the outcome sends split into the error sends and the success
sends. -/
theorem errSend_add_okSend (evs : List ProduceEvent) :
    errSendCount evs + okSendCount evs = outcomeCount evs := by
  induction evs with
  | nil => rfl
  | cons e evs ih =>
      cases e <;>
        simp [errSendCount, okSendCount, outcomeCount, isOutcomeEvent,
          List.filter] at ih ⊢ <;> omega

/-- Helper: `produceRest` performs exactly one more outcome send than
the incoming trace already holds. -/
theorem outcomeCount_produceRest (cfg : Config) (pubRes : Nat → Except String Unit)
    (st : PState) (m : Message) (ev : List ProduceEvent) :
    outcomeCount (produceRest cfg pubRes st m ev).2 = outcomeCount ev + 1 := by
  rcases produceRest_cases cfg pubRes st m ev with ⟨att, h⟩ | ⟨att, e, h⟩ | h <;>
    simp [h, outcomeCount, isOutcomeEvent, List.filter_append]

/-- Helper: every `produce` call performs exactly one outcome send. -/
theorem outcomeCount_produce (cfg : Config)
    (declareRes : Nat → String → String → Except String Unit)
    (pubRes : Nat → Except String Unit) (st : PState) (m : Message) :
    outcomeCount (produce cfg declareRes pubRes st m).2 = 1 := by
  by_cases hm : m.Exchange ∈ st.exDeclared
  · have h := outcomeCount_produceRest cfg pubRes st m []
    simpa [produce, hm, outcomeCount] using h
  · cases hd : declareRes st.chId m.Exchange m.Kind with
    | error e => simp [produce, hm, hd, outcomeCount, isOutcomeEvent, List.filter]
    | ok u =>
        cases u
        have h := outcomeCount_produceRest cfg pubRes
          { st with exDeclared := m.Exchange :: st.exDeclared } m
          [ProduceEvent.exchangeDeclare st.chId m.Exchange m.Kind cfg.Durable]
        simpa [produce, hm, hd, outcomeCount, isOutcomeEvent, List.filter] using h

/-- Helper: on a cache miss, the first event of a `produce` trace is the
broker exchange-declare call, whatever the broker answers. -/
theorem produce_declares_first_on_cache_miss (cfg : Config)
    (declareRes : Nat → String → String → Except String Unit)
    (pubRes : Nat → Except String Unit) (st : PState) (m : Message)
    (hm : st.exDeclared.contains m.Exchange = false) :
    firstIdx isDeclareEvent (produce cfg declareRes pubRes st m).2 = some 0 := by
  have hm2 : m.Exchange ∉ st.exDeclared := by simpa using hm
  cases hd : declareRes st.chId m.Exchange m.Kind with
  | error e => simp [produce, hm2, hd, firstIdx, isDeclareEvent]
  | ok u =>
      cases u
      have hp : (produce cfg declareRes pubRes st m).2
          = (produceRest cfg pubRes { st with exDeclared := m.Exchange :: st.exDeclared } m
              [ProduceEvent.exchangeDeclare st.chId m.Exchange m.Kind cfg.Durable]).2 := by
        simp [produce, hm2, hd]
      rcases produceRest_cases cfg pubRes
          { st with exDeclared := m.Exchange :: st.exDeclared } m
          [ProduceEvent.exchangeDeclare st.chId m.Exchange m.Kind cfg.Durable] with
        ⟨att, h⟩ | ⟨att, e, h⟩ | h <;>
        rw [hp, h] <;> simp [firstIdx, isDeclareEvent]

/-- C1, counterexample: with threshold 2 and every publish failing,
the breaker is still closed after the 2nd consecutive failure (because
`ReadyToTrip` trips only when the failures are STRICTLY greater than
the threshold), the 3rd message is handed to the retried publisher
(its trace has a publish event), and its error is the final publish
error, not a breaker-open rejection — so the claimed scenario is false
on the code. -/
theorem c1_threshold_two_breaker_closed_after_two_failures :
    (processFrom cfgT2 declOk pubFailAll 0 st0 [msgOrders, msgOrders]).1.breaker.state
      = State.closed
    ∧ ((processFrom cfgT2 declOk pubFailAll 0 st0
        [msgOrders, msgOrders, msgOrders]).2.getD 2 []).any isPublishEvent = true
    ∧ ProduceEvent.emitErr EmitError.breakerOpen
        ∉ (processFrom cfgT2 declOk pubFailAll 0 st0
            [msgOrders, msgOrders, msgOrders]).2.getD 2 []
    ∧ ProduceEvent.emitErr (EmitError.publishFailed "publish failed")
        ∈ (processFrom cfgT2 declOk pubFailAll 0 st0
            [msgOrders, msgOrders, msgOrders]).2.getD 2 [] := by
  decide

/-- C1, amended: in the closed state a failed call opens the breaker
exactly when the consecutive failures STRICTLY exceed the threshold
(so with threshold 2 only after the 3rd consecutive failure), and the
wrapped retried publish is still invoked for the tripping call; in the
scenario it is the 4th message that is rejected with the breaker-open
error without the retry mechanism being invoked. -/
theorem c1_breaker_opens_when_failures_strictly_exceed_threshold
    (threshold : Nat) (b : BreakerData) (e : String) (h : b.state = State.closed) :
    ((breakerExecute (readyToTrip threshold) b (Except.error e)).breaker.state
        = State.opened ↔ threshold < b.consecutiveFailures + 1)
    ∧ (breakerExecute (readyToTrip threshold) b (Except.error e)).invoked = true
    ∧ (processFrom cfgT2 declOk pubFailAll 0 st0
        [msgOrders, msgOrders, msgOrders]).1.breaker.state = State.opened
    ∧ ((processFrom cfgT2 declOk pubFailAll 0 st0
        [msgOrders, msgOrders, msgOrders, msgOrders]).2.getD 3 []).any isPublishEvent = false
    ∧ ProduceEvent.emitErr EmitError.breakerOpen
        ∈ (processFrom cfgT2 declOk pubFailAll 0 st0
            [msgOrders, msgOrders, msgOrders, msgOrders]).2.getD 3 [] := by
  obtain ⟨bs, cf⟩ := b
  simp only at h
  subst h
  refine ⟨?_, ?_, by decide, by decide, by decide⟩
  · by_cases hlt : threshold < cf + 1 <;>
      simp [breakerExecute, readyToTrip, hlt]
  · simp [breakerExecute, readyToTrip, apply_ite]

/-- C1, witness: at threshold 2 a 3rd consecutive failure opens the
breaker and the failing call did invoke the wrapped publish. -/
theorem c1_breaker_opens_witness :
    (breakerExecute (readyToTrip 2) ⟨State.closed, 2⟩ (Except.error "boom")).breaker.state
      = State.opened
    ∧ (breakerExecute (readyToTrip 2) ⟨State.closed, 2⟩ (Except.error "boom")).invoked
      = true := by
  have h := c1_breaker_opens_when_failures_strictly_exceed_threshold 2
    ⟨State.closed, 2⟩ "boom" rfl
  exact ⟨h.1.mpr (by decide), h.2.1⟩

/-- C2, counterexample: on a successful `Listen` whose delivery stream
closes after three deliveries, the relay forwards all three in order
into the capacity-256 channel but the output channel is NOT closed (the
relay goroutine at rabbus.go lines 207-211 returns without closing it),
contradicting the claim that it is closed. -/
theorem c2_relay_leaves_output_channel_unclosed :
    (listen cfgT2 (listenBrokerOk deliveries3) lcOrders).1
      = Except.ok ⟨256, [⟨⟨[1], 1⟩⟩, ⟨⟨[2], 2⟩⟩, ⟨⟨[3], 3⟩⟩], false⟩
    ∧ Except.map ListenResult.outputClosed
        (listen cfgT2 (listenBrokerOk deliveries3) lcOrders).1 = Except.ok false :=
  ⟨rfl, rfl⟩

/-- C2, amended: for every successful Listen the inbound deliveries are
forwarded one-to-one, in arrival order, into an output channel of
capacity 256, and when the delivery stream closes the relay stops
forwarding — but the output channel is left open, not closed. -/
theorem c2_listen_forwards_in_order_into_capacity256_unclosed_channel
    (cfg : Config) (b : ListenBroker) (c : ListenConfig) (q : String)
    (ds : List Delivery)
    (hex : c.Exchange ≠ "") (hk : c.Kind ≠ "") (hq : c.Queue ≠ "")
    (h1 : b.exchangeDeclare c.Exchange c.Kind cfg.Durable = Except.ok ())
    (h2 : b.queueDeclare c.Queue cfg.Durable = Except.ok q)
    (h3 : b.queueBind q c.Key c.Exchange = Except.ok ())
    (h4 : b.consume q = Except.ok ds) :
    (listen cfg b c).1 = Except.ok ⟨256, ds.map newConsumerMessage, false⟩ := by
  simp [listen, hex, hk, hq, h1, h2, h3, h4]

/-- C2, witness: the amended forwarding statement at a concrete
subscription and broker. -/
theorem c2_listen_forwards_witness :
    (listen cfgT2 (listenBrokerOk deliveries3) lcOrders).1
      = Except.ok ⟨256, deliveries3.map newConsumerMessage, false⟩ :=
  c2_listen_forwards_in_order_into_capacity256_unclosed_channel cfgT2
    (listenBrokerOk deliveries3) lcOrders "orders-q" deliveries3
    (by decide) (by decide) (by decide) rfl rfl rfl rfl

/-- C3: the reconnection swap of `notifyClose` (rabbus.go lines 278-281)
replaces the channel but leaves the exchange-declaration cache intact,
so after a publish that declared "orders" on channel 0 and a swap to
channel 1, a second publish to "orders" performs no declare call on the
new channel — the code never invalidates the cache, contrary to the
claim (and to spec section 9, which calls this a required fix). -/
theorem c3_exchange_cache_survives_channel_swap :
    (∀ s : PState, (reconnectSwap s).exDeclared = s.exDeclared)
    ∧ (reconnectSwap (produce cfgT2 declOk (pubOkAll 0) st0 msgOrders).1).chId = 1
    ∧ (reconnectSwap (produce cfgT2 declOk (pubOkAll 0) st0 msgOrders).1).exDeclared
      = ["orders"]
    ∧ (produce cfgT2 declOk (pubOkAll 0)
        (reconnectSwap (produce cfgT2 declOk (pubOkAll 0) st0 msgOrders).1)
        msgOrders).2.any isDeclareEvent = false :=
  ⟨fun _ => rfl, by decide, by decide, by decide⟩

/-- C4, counterexample: on a fresh exchange the first event of the
produce trace is the broker exchange-declare call (index 0) and the
defaulting statements run only afterwards (index 1) — the source
declares first (rabbus.go lines 229-235) and defaults second (lines
237-243), so defaults are not applied as step 1 before the declare. -/
theorem c4_declare_precedes_defaults_at_concrete_input :
    firstIdx isDeclareEvent (produce cfgT2 declOk (pubOkAll 0) st0 msgOrders).2 = some 0
    ∧ firstIdx isDefaultsEvent (produce cfgT2 declOk (pubOkAll 0) st0 msgOrders).2
      = some 1 := by
  decide

/-- C4, amended: on a cache miss with a successful declare, the declare
call comes first (index 0) and the field defaults are applied right
after it (index 1), before the publish; the publish then uses the
defaulted values: content type "application/json" when unset, delivery
mode persistent (2) when zero, encoding "UTF-8", body the payload. -/
theorem c4_defaults_after_declare_and_used_in_publish
    (cfg : Config) (declareRes : Nat → String → String → Except String Unit)
    (pubRes : Nat → Except String Unit) (st : PState) (m : Message)
    (hm : st.exDeclared.contains m.Exchange = false)
    (hd : declareRes st.chId m.Exchange m.Kind = Except.ok ()) :
    firstIdx isDeclareEvent (produce cfg declareRes pubRes st m).2 = some 0
    ∧ firstIdx isDefaultsEvent (produce cfg declareRes pubRes st m).2 = some 1
    ∧ ∀ p, publishedRecord (produce cfg declareRes pubRes st m).2 = some p →
        p = defaultedPublishing m := by
  have hm2 : m.Exchange ∉ st.exDeclared := by simpa using hm
  have hp : (produce cfg declareRes pubRes st m).2
      = (produceRest cfg pubRes { st with exDeclared := m.Exchange :: st.exDeclared } m
          [ProduceEvent.exchangeDeclare st.chId m.Exchange m.Kind cfg.Durable]).2 := by
    simp [produce, hm2, hd]
  rcases produceRest_cases cfg pubRes
      { st with exDeclared := m.Exchange :: st.exDeclared } m
      [ProduceEvent.exchangeDeclare st.chId m.Exchange m.Kind cfg.Durable] with
    ⟨att, h⟩ | ⟨att, e, h⟩ | h <;>
    rw [hp, h] <;>
    refine ⟨by simp [firstIdx, isDeclareEvent],
      by simp [firstIdx, isDeclareEvent, isDefaultsEvent], ?_⟩ <;>
    · intro p hpr
      simp [publishedRecord] at hpr
      try simp [hpr]

/-- C4, witness: the amended order and publish values at a concrete
message with unset content type and delivery mode. -/
theorem c4_defaults_witness :
    firstIdx isDeclareEvent (produce cfgT2 declOk (pubOkAll 0) st0 msgOrders).2 = some 0
    ∧ firstIdx isDefaultsEvent (produce cfgT2 declOk (pubOkAll 0) st0 msgOrders).2 = some 1
    ∧ ∀ p, publishedRecord (produce cfgT2 declOk (pubOkAll 0) st0 msgOrders).2 = some p →
        p = defaultedPublishing msgOrders :=
  c4_defaults_after_declare_and_used_in_publish cfgT2 declOk (pubOkAll 0) st0 msgOrders
    rfl rfl

/-- C5: every message taken from the input channel yields exactly one
send across the two outcome channels — one error send or one success
send, never both, never neither — whatever the broker and breaker do. -/
theorem c5_exactly_one_outcome_per_message
    (cfg : Config) (declareRes : Nat → String → String → Except String Unit)
    (pubRes : Nat → Except String Unit) (st : PState) (m : Message) :
    errSendCount (produce cfg declareRes pubRes st m).2
      + okSendCount (produce cfg declareRes pubRes st m).2 = 1 := by
  rw [errSend_add_okSend]
  exact outcomeCount_produce cfg declareRes pubRes st m

/-- C6: Listen validates exchange, then kind, then queue, returning the
matching sentinel with zero broker calls, and the three sentinels are
pairwise distinct. -/
theorem c6_listen_validation_sentinels
    (cfg : Config) (b : ListenBroker) (c : ListenConfig) :
    (c.Exchange = "" →
        listen cfg b c = (Except.error RabbusError.errMissingExchange, []))
    ∧ (c.Exchange ≠ "" → c.Kind = "" →
        listen cfg b c = (Except.error RabbusError.errMissingKind, []))
    ∧ (c.Exchange ≠ "" → c.Kind ≠ "" → c.Queue = "" →
        listen cfg b c = (Except.error RabbusError.errMissingQueue, []))
    ∧ RabbusError.errMissingExchange ≠ RabbusError.errMissingKind
    ∧ RabbusError.errMissingExchange ≠ RabbusError.errMissingQueue
    ∧ RabbusError.errMissingKind ≠ RabbusError.errMissingQueue := by
  refine ⟨?_, ?_, ?_, by decide, by decide, by decide⟩
  · intro h1
    simp [listen, h1]
  · intro h1 h2
    simp [listen, h1, h2]
  · intro h1 h2 h3
    simp [listen, h1, h2, h3]

/-- C6, witness: each validation failure at a concrete request. -/
theorem c6_listen_validation_witness :
    listen cfgT2 (listenBrokerOk deliveries3) ⟨"", "topic", "k", "q"⟩
      = (Except.error RabbusError.errMissingExchange, [])
    ∧ listen cfgT2 (listenBrokerOk deliveries3) ⟨"ex", "", "k", "q"⟩
      = (Except.error RabbusError.errMissingKind, [])
    ∧ listen cfgT2 (listenBrokerOk deliveries3) ⟨"ex", "topic", "k", ""⟩
      = (Except.error RabbusError.errMissingQueue, []) :=
  ⟨(c6_listen_validation_sentinels cfgT2 (listenBrokerOk deliveries3)
      ⟨"", "topic", "k", "q"⟩).1 rfl,
    (c6_listen_validation_sentinels cfgT2 (listenBrokerOk deliveries3)
      ⟨"ex", "", "k", "q"⟩).2.1 (by decide) rfl,
    (c6_listen_validation_sentinels cfgT2 (listenBrokerOk deliveries3)
      ⟨"ex", "topic", "k", ""⟩).2.2.1 (by decide) (by decide) rfl⟩

/-- C7: on a cache miss, a failed declare surfaces the error on the
error channel and leaves the cache unchanged, so a later publish to the
same exchange retries the declare (its trace again starts with the
declare call, under any oracle); the name is added to the cache exactly
when the declare succeeds. -/
theorem c7_cache_add_only_after_successful_declare
    (cfg : Config)
    (declareRes declareRes2 : Nat → String → String → Except String Unit)
    (pubRes pubRes2 : Nat → Except String Unit)
    (st : PState) (m : Message) (e : String)
    (hm : st.exDeclared.contains m.Exchange = false) :
    (declareRes st.chId m.Exchange m.Kind = Except.error e →
        produce cfg declareRes pubRes st m
          = (st, [ProduceEvent.exchangeDeclare st.chId m.Exchange m.Kind cfg.Durable,
              ProduceEvent.emitErr (EmitError.declareFailed e)])
        ∧ firstIdx isDeclareEvent
            (produce cfg declareRes2 pubRes2
              (produce cfg declareRes pubRes st m).1 m).2 = some 0)
    ∧ (declareRes st.chId m.Exchange m.Kind = Except.ok () →
        (produce cfg declareRes pubRes st m).1.exDeclared
          = m.Exchange :: st.exDeclared) := by
  have hm2 : m.Exchange ∉ st.exDeclared := by simpa using hm
  refine ⟨fun hd => ?_, fun hd => ?_⟩
  · have h1 : produce cfg declareRes pubRes st m
        = (st, [ProduceEvent.exchangeDeclare st.chId m.Exchange m.Kind cfg.Durable,
            ProduceEvent.emitErr (EmitError.declareFailed e)]) := by
      simp [produce, hm2, hd]
    refine ⟨h1, ?_⟩
    rw [h1]
    exact produce_declares_first_on_cache_miss cfg declareRes2 pubRes2 st m hm
  · have h1 : (produce cfg declareRes pubRes st m).1
        = (produceRest cfg pubRes
            { st with exDeclared := m.Exchange :: st.exDeclared } m
            [ProduceEvent.exchangeDeclare st.chId m.Exchange m.Kind cfg.Durable]).1 := by
      simp [produce, hm2, hd]
    rw [h1, produceRest_exDeclared]

/-- C7, witness: a failed declare leaves the cache empty and the next
publish to the same exchange declares again; a successful declare
records the name. -/
theorem c7_cache_add_witness :
    (produce cfgT2 declFail (pubOkAll 0) st0 msgOrders
      = (st0, [ProduceEvent.exchangeDeclare 0 "orders" "topic" true,
          ProduceEvent.emitErr (EmitError.declareFailed "declare failed")])
      ∧ firstIdx isDeclareEvent
          (produce cfgT2 declOk (pubOkAll 0)
            (produce cfgT2 declFail (pubOkAll 0) st0 msgOrders).1 msgOrders).2 = some 0)
    ∧ (produce cfgT2 declOk (pubOkAll 0) st0 msgOrders).1.exDeclared = ["orders"] :=
  ⟨(c7_cache_add_only_after_successful_declare cfgT2 declFail declOk (pubOkAll 0)
      (pubOkAll 0) st0 msgOrders "declare failed" rfl).1 rfl,
    (c7_cache_add_only_after_successful_declare cfgT2 declOk declOk (pubOkAll 0)
      (pubOkAll 0) st0 msgOrders "unused" rfl).2 rfl⟩

/-- C8: the `OnStateChange` wrapper installed by `NewRabbus` calls the
configured callback unconditionally on every breaker transition (one
invocation per transition), so a configuration whose callback is nil
panics with a nil-pointer dereference on any transition — here shown on
the closed-to-open transition of a tripping failure. -/
theorem c8_nil_onStateChange_panics_on_transition
    (cfg : Config) (hnil : cfg.OnStateChange = none) :
    (∀ name fromS toS, settingsOnStateChange cfg name fromS toS
        = Except.error
            "runtime error: invalid memory address or nil pointer dereference")
    ∧ (∀ name trs, (transitionCallbackResults cfg name trs).length = trs.length)
    ∧ (breakerExecute (readyToTrip 2) ⟨State.closed, 2⟩
        (Except.error "boom")).transitions = [(State.closed, State.opened)]
    ∧ transitionCallbackResults cfg "Rabbus"
        (breakerExecute (readyToTrip 2) ⟨State.closed, 2⟩
          (Except.error "boom")).transitions
      = [Except.error
          "runtime error: invalid memory address or nil pointer dereference"] := by
  refine ⟨?_, ?_, by decide, ?_⟩
  · intro name fromS toS
    simp [settingsOnStateChange, invokeCallback, hnil]
  · intro name trs
    simp [transitionCallbackResults]
  · simp [transitionCallbackResults, settingsOnStateChange, invokeCallback, hnil,
      breakerExecute, readyToTrip]

/-- C8, witness: a concrete configuration with a nil callback panics on
the transition triggered by a tripping failure. -/
theorem c8_nil_onStateChange_witness :
    transitionCallbackResults cfgT2 "Rabbus"
      (breakerExecute (readyToTrip 2) ⟨State.closed, 2⟩
        (Except.error "boom")).transitions
      = [Except.error
          "runtime error: invalid memory address or nil pointer dereference"] :=
  (c8_nil_onStateChange_panics_on_transition cfgT2 rfl).2.2.2

/-- C9: Listen never validates the routing key: with non-empty exchange,
kind and queue and a cooperative broker, any key — including the empty
string — is accepted, the call succeeds, and the queue is bound to the
exchange with exactly that key; the broker calls are the declare,
queue-declare, bind and consume, in order, and none inspects the key
before the bind. -/
theorem c9_listen_never_validates_routing_key
    (cfg : Config) (b : ListenBroker) (c : ListenConfig) (q : String)
    (ds : List Delivery)
    (hex : c.Exchange ≠ "") (hk : c.Kind ≠ "") (hq : c.Queue ≠ "")
    (h1 : b.exchangeDeclare c.Exchange c.Kind cfg.Durable = Except.ok ())
    (h2 : b.queueDeclare c.Queue cfg.Durable = Except.ok q)
    (h3 : b.queueBind q c.Key c.Exchange = Except.ok ())
    (h4 : b.consume q = Except.ok ds) :
    (∃ r, (listen cfg b c).1 = Except.ok r)
    ∧ (listen cfg b c).2
      = [ListenCall.exchangeDeclare c.Exchange c.Kind cfg.Durable,
          ListenCall.queueDeclare c.Queue cfg.Durable,
          ListenCall.queueBind q c.Key c.Exchange,
          ListenCall.consume q] := by
  refine ⟨⟨⟨256, ds.map newConsumerMessage, false⟩, ?_⟩, ?_⟩ <;>
    simp [listen, hex, hk, hq, h1, h2, h3, h4]

/-- C9, witness: a subscription with an empty routing key succeeds and
the queue is bound with the empty key. -/
theorem c9_listen_empty_key_witness :
    (∃ r, (listen cfgT2 (listenBrokerOk deliveries3) lcNoKey).1 = Except.ok r)
    ∧ (listen cfgT2 (listenBrokerOk deliveries3) lcNoKey).2
      = [ListenCall.exchangeDeclare "orders" "topic" true,
          ListenCall.queueDeclare "orders-q" true,
          ListenCall.queueBind "orders-q" "" "orders",
          ListenCall.consume "orders-q"] :=
  c9_listen_never_validates_routing_key cfgT2 (listenBrokerOk deliveries3) lcNoKey
    "orders-q" deliveries3 (by decide) (by decide) (by decide) rfl rfl rfl rfl

/-- C10: Close sets only the channel-closed and connection-closed flags
and leaves the rest of the facade state — declaration cache, breaker,
channel identity, the three emit-protocol channels and the register
process — untouched; a message enqueued after Close is still dequeued
and processed to exactly one outcome, with the same trace as before the
Close. -/
theorem c10_close_touches_only_channel_and_connection
    (s : RabbusSt) (cfg : Config)
    (declareRes : Nat → String → String → Except String Unit)
    (pubRes : Nat → Except String Unit) (m : Message) :
    closeRabbus s = { s with chClosed := true, connClosed := true }
    ∧ (closeRabbus s).pstate = s.pstate
    ∧ (closeRabbus s).emitOpen = s.emitOpen
    ∧ (closeRabbus s).emitErrOpen = s.emitErrOpen
    ∧ (closeRabbus s).emitOkOpen = s.emitOkOpen
    ∧ (closeRabbus s).registerRunning = s.registerRunning
    ∧ (registerStep cfg declareRes pubRes (closeRabbus s) m).2
        = (registerStep cfg declareRes pubRes s m).2
    ∧ outcomeCount (registerStep cfg declareRes pubRes (closeRabbus s) m).2 = 1 :=
  ⟨rfl, rfl, rfl, rfl, rfl, rfl, rfl,
    outcomeCount_produce cfg declareRes pubRes s.pstate m⟩

end Rabbus
